import Mathlib

/-!
# Verification of the unified GPS adapter service

Shallow embedding of the repository's data model (`src/models.py`), the
Trackimo adapter (`src/parsers/trackimo_parser.py`), the Arvento adapter
(`src/parsers/arvento_parser.py`) and the REST facade (`src/server.py`),
together with theorems settling the specification claims.

Python floats are modelled as rationals, Python strings as `String`
(with `List Char` used internally where structural reasoning is needed),
and `datetime` values as a civil-field record with an optional UTC offset
in minutes.
-/

namespace GpsSpec

/-! ## Unified data model (`src/models.py`) -/

/-- `GPSProvider` enum from `models.py`. -/
inductive GPSProvider
  | trackimo
  | arvento
deriving DecidableEq, Repr

/-- The `.value` of the enum member: its canonical lowercase string. -/
def GPSProvider.value : GPSProvider → String
  | .trackimo => "trackimo"
  | .arvento => "arvento"

/-- Model of a Python `datetime`: civil fields plus an optional fixed UTC
offset in minutes (`None` models a naive datetime). -/
structure PyDateTime where
  year : Nat
  month : Nat
  day : Nat
  hour : Nat
  minute : Nat
  second : Nat
  microsecond : Nat
  tzOffsetMinutes : Option Int
deriving DecidableEq, Repr

/-! ### Decimal digit rendering and parsing

`datetime.isoformat` renders zero-padded decimal fields; we model the
rendering over `List Char` so that parsing it back is provable. -/

/-- The decimal digit character for `n < 10` (clamped elsewhere unused). -/
def digitChar : Nat → Char
  | 0 => '0' | 1 => '1' | 2 => '2' | 3 => '3' | 4 => '4'
  | 5 => '5' | 6 => '6' | 7 => '7' | 8 => '8' | 9 => '9'
  | _ => '0'

/-- Numeric value of a decimal digit character. -/
def digitVal (c : Char) : Nat := c.toNat - 48

/-- Decimal digit test. -/
def isDigitC (c : Char) : Bool := 48 ≤ c.toNat && c.toNat ≤ 57

/-- Two-digit zero-padded rendering (`%02d` for values below 100). -/
def pad2 (n : Nat) : List Char := [digitChar (n / 10), digitChar (n % 10)]

/-- Four-digit zero-padded rendering (`%04d` for values below 10000). -/
def pad4 (n : Nat) : List Char :=
  [digitChar (n / 1000), digitChar (n / 100 % 10), digitChar (n / 10 % 10), digitChar (n % 10)]

/-- Six-digit zero-padded rendering (`%06d` for values below 1000000). -/
def pad6 (n : Nat) : List Char :=
  [digitChar (n / 100000), digitChar (n / 10000 % 10), digitChar (n / 1000 % 10),
   digitChar (n / 100 % 10), digitChar (n / 10 % 10), digitChar (n % 10)]

/-- Consume exactly two decimal digits. -/
def parse2 : List Char → Option (Nat × List Char)
  | a :: b :: r =>
    if isDigitC a && isDigitC b then some (10 * digitVal a + digitVal b, r) else none
  | _ => none

/-- Consume exactly four decimal digits. -/
def parse4 : List Char → Option (Nat × List Char)
  | a :: b :: c :: d :: r =>
    if isDigitC a && isDigitC b && isDigitC c && isDigitC d then
      some (1000 * digitVal a + 100 * digitVal b + 10 * digitVal c + digitVal d, r)
    else none
  | _ => none

/-- Consume exactly six decimal digits. -/
def parse6 : List Char → Option (Nat × List Char)
  | a :: b :: c :: d :: e :: f :: r =>
    if isDigitC a && isDigitC b && isDigitC c && isDigitC d && isDigitC e && isDigitC f then
      some (100000 * digitVal a + 10000 * digitVal b + 1000 * digitVal c +
            100 * digitVal d + 10 * digitVal e + digitVal f, r)
    else none
  | _ => none

theorem digitVal_digitChar : ∀ k < 10, digitVal (digitChar k) = k := by decide

theorem isDigitC_digitChar : ∀ k < 10, isDigitC (digitChar k) = true := by decide

theorem parse2_pad2 (n : Nat) (h : n < 100) (r : List Char) :
    parse2 (pad2 n ++ r) = some (n, r) := by
  have h1 : n / 10 < 10 := by omega
  have h2 : n % 10 < 10 := by omega
  simp only [pad2, List.cons_append, List.nil_append, parse2,
    isDigitC_digitChar _ h1, isDigitC_digitChar _ h2,
    digitVal_digitChar _ h1, digitVal_digitChar _ h2, Bool.and_self, if_true]
  congr 1
  congr 1
  omega

theorem parse4_pad4 (n : Nat) (h : n < 10000) (r : List Char) :
    parse4 (pad4 n ++ r) = some (n, r) := by
  have h1 : n / 1000 < 10 := by omega
  have h2 : n / 100 % 10 < 10 := by omega
  have h3 : n / 10 % 10 < 10 := by omega
  have h4 : n % 10 < 10 := by omega
  simp only [pad4, List.cons_append, List.nil_append, parse4,
    isDigitC_digitChar _ h1, isDigitC_digitChar _ h2, isDigitC_digitChar _ h3,
    isDigitC_digitChar _ h4,
    digitVal_digitChar _ h1, digitVal_digitChar _ h2, digitVal_digitChar _ h3,
    digitVal_digitChar _ h4, Bool.and_self, if_true]
  congr 1
  congr 1
  omega

theorem parse6_pad6 (n : Nat) (h : n < 1000000) (r : List Char) :
    parse6 (pad6 n ++ r) = some (n, r) := by
  have h1 : n / 100000 < 10 := by omega
  have h2 : n / 10000 % 10 < 10 := by omega
  have h3 : n / 1000 % 10 < 10 := by omega
  have h4 : n / 100 % 10 < 10 := by omega
  have h5 : n / 10 % 10 < 10 := by omega
  have h6 : n % 10 < 10 := by omega
  simp only [pad6, List.cons_append, List.nil_append, parse6,
    isDigitC_digitChar _ h1, isDigitC_digitChar _ h2, isDigitC_digitChar _ h3,
    isDigitC_digitChar _ h4, isDigitC_digitChar _ h5, isDigitC_digitChar _ h6,
    digitVal_digitChar _ h1, digitVal_digitChar _ h2, digitVal_digitChar _ h3,
    digitVal_digitChar _ h4, digitVal_digitChar _ h5, digitVal_digitChar _ h6,
    Bool.and_self, if_true]
  congr 1
  congr 1
  omega

/-! ### `datetime.isoformat` and `datetime.fromisoformat` -/

/-- Rendering of a fixed UTC offset, as Python renders `tzinfo` offsets:
sign, two-digit hours, colon, two-digit minutes. -/
def renderOffset (o : Int) : List Char :=
  (if o < 0 then '-' else '+') :: (pad2 (o.natAbs / 60) ++ (':' :: pad2 (o.natAbs % 60)))

/-- `datetime.isoformat()` over `List Char`: `YYYY-MM-DDTHH:MM:SS`, with
`.ffffff` exactly when the microsecond field is nonzero, and the UTC offset
suffix exactly when the datetime is aware. -/
def isoformatL (d : PyDateTime) : List Char :=
  pad4 d.year ++ ('-' :: (pad2 d.month ++ ('-' :: (pad2 d.day ++
  ('T' :: (pad2 d.hour ++ (':' :: (pad2 d.minute ++ (':' :: (pad2 d.second ++
  ((if d.microsecond = 0 then [] else '.' :: pad6 d.microsecond) ++
  (match d.tzOffsetMinutes with
   | none => []
   | some o => renderOffset o))))))))))))

/-- `datetime.isoformat()` as a `String`. -/
def isoformat (d : PyDateTime) : String := String.mk (isoformatL d)

/-- Consume one expected character. -/
def expectChar (c : Char) : List Char → Option (List Char)
  | x :: r => if x = c then some r else none
  | [] => none

/-- Parse an optional `.ffffff` fraction (microseconds). -/
def parseFrac : List Char → Option (Nat × List Char)
  | c :: r => if c = '.' then parse6 r else some (0, c :: r)
  | [] => some (0, [])

/-- Parse a `±HH:MM` UTC offset into minutes, with the range checks
`fromisoformat` performs on offsets. -/
def parseOffset : List Char → Option (Int × List Char)
  | c :: r =>
    if c = '+' ∨ c = '-' then
      match parse2 r with
      | some (h, r1) =>
        match expectChar ':' r1 with
        | some r2 =>
          match parse2 r2 with
          | some (m, r3) =>
            if h ≤ 23 ∧ m ≤ 59 then
              some (if c = '-' then -((h * 60 + m : Nat) : Int) else ((h * 60 + m : Nat) : Int), r3)
            else none
          | none => none
        | none => none
      | none => none
    else none
  | [] => none

/-- Parse an optional trailing UTC offset. -/
def parseTZ : List Char → Option (Option Int × List Char)
  | [] => some (none, [])
  | l => (parseOffset l).map (fun p => (some p.1, p.2))

/-- Parse the `YYYY-MM-DD` date prefix. -/
def parseDate (l : List Char) : Option (Nat × Nat × Nat × List Char) := do
  let (y, l) ← parse4 l
  let l ← expectChar '-' l
  let (mo, l) ← parse2 l
  let l ← expectChar '-' l
  let (dy, l) ← parse2 l
  some (y, mo, dy, l)

/-- Parse the `HH:MM:SS` time part. -/
def parseTime (l : List Char) : Option (Nat × Nat × Nat × List Char) := do
  let (h, l) ← parse2 l
  let l ← expectChar ':' l
  let (mi, l) ← parse2 l
  let l ← expectChar ':' l
  let (s, l) ← parse2 l
  some (h, mi, s, l)

/-- `datetime.fromisoformat` over `List Char`, for the
`YYYY-MM-DDTHH:MM:SS[.ffffff][±HH:MM]` shapes this system produces and
consumes; `none` models the `ValueError` raised on anything else. -/
def fromisoformatL (l : List Char) : Option PyDateTime := do
  let (y, mo, dy, l) ← parseDate l
  let l ← expectChar 'T' l
  let (h, mi, s, l) ← parseTime l
  let (u, l) ← parseFrac l
  let (tz, l) ← parseTZ l
  if 1 ≤ y ∧ 1 ≤ mo ∧ mo ≤ 12 ∧ 1 ≤ dy ∧ dy ≤ 31 ∧ h ≤ 23 ∧ mi ≤ 59 ∧ s ≤ 59 ∧ l = [] then
    some ⟨y, mo, dy, h, mi, s, u, tz⟩
  else none

/-- `datetime.fromisoformat` on a `String`. -/
def fromisoformat (s : String) : Option PyDateTime := fromisoformatL s.toList

/-- Validity of a `PyDateTime`: the field ranges Python's `datetime`
constructor enforces (day-in-month granularity is not needed here). -/
def ValidDT (d : PyDateTime) : Prop :=
  1 ≤ d.year ∧ d.year ≤ 9999 ∧ 1 ≤ d.month ∧ d.month ≤ 12 ∧
  1 ≤ d.day ∧ d.day ≤ 31 ∧ d.hour ≤ 23 ∧ d.minute ≤ 59 ∧ d.second ≤ 59 ∧
  d.microsecond < 1000000 ∧ (∀ o ∈ d.tzOffsetMinutes, o.natAbs < 1440)

instance (d : PyDateTime) : Decidable (ValidDT d) := by
  unfold ValidDT
  infer_instance

theorem parse2_pad2_nil (n : Nat) (h : n < 100) : parse2 (pad2 n) = some (n, []) := by
  have := parse2_pad2 n h []
  simpa using this

theorem parseFrac_zero (l : List Char) (hl : ∀ c ∈ l.head?, c ≠ '.') :
    parseFrac l = some (0, l) := by
  match l with
  | [] => rfl
  | c :: r =>
    have hc : c ≠ '.' := hl c rfl
    simp [parseFrac, hc]

theorem parseOffset_renderOffset (o : Int) (h : o.natAbs < 1440) :
    parseOffset (renderOffset o) = some (o, []) := by
  have hh : o.natAbs / 60 ≤ 23 := by omega
  have hh100 : o.natAbs / 60 < 100 := by omega
  have hm : o.natAbs % 60 ≤ 59 := by omega
  have hm100 : o.natAbs % 60 < 100 := by omega
  rcases lt_or_le o 0 with hneg | hpos
  · simp only [renderOffset, if_pos hneg, parseOffset]
    rw [if_pos (Or.inr trivial)]
    simp only [parse2_pad2 _ hh100, expectChar, parse2_pad2_nil _ hm100, ite_true, if_true]
    rw [if_pos (And.intro hh hm)]
    have hval : -((o.natAbs / 60 * 60 + o.natAbs % 60 : Nat) : Int) = o := by omega
    rw [hval]
  · have hnn : ¬ o < 0 := by omega
    have hchar : ¬ ('+' : Char) = '-' := by decide
    simp only [renderOffset, if_neg hnn, parseOffset]
    rw [if_pos (Or.inl trivial)]
    simp only [parse2_pad2 _ hh100, expectChar, parse2_pad2_nil _ hm100, ite_true, if_true]
    rw [if_pos (And.intro hh hm), if_neg hchar]
    have hval : ((o.natAbs / 60 * 60 + o.natAbs % 60 : Nat) : Int) = o := by omega
    rw [hval]

theorem parseTZ_cons (c : Char) (r : List Char) :
    parseTZ (c :: r) = (parseOffset (c :: r)).map (fun p => (some p.1, p.2)) := rfl

theorem parseTZ_renderOffset (o : Int) (h : o.natAbs < 1440) :
    parseTZ (renderOffset o) = some (some o, []) := by
  have e := parseOffset_renderOffset o h
  unfold renderOffset at e ⊢
  rw [parseTZ_cons, e, Option.map_some']

/-- Round trip: `fromisoformat` recovers every valid datetime from its
`isoformat` rendering, so the rendering loses no information. -/
theorem fromisoformatL_isoformatL (d : PyDateTime) (hv : ValidDT d) :
    fromisoformatL (isoformatL d) = some d := by
  obtain ⟨h1, h2, h3, h4, h5, h6, h7, h8, h9, h10, h11⟩ := hv
  have hfrac : parseFrac ((if d.microsecond = 0 then [] else '.' :: pad6 d.microsecond) ++
      (match d.tzOffsetMinutes with | none => [] | some o => renderOffset o)) =
      some (d.microsecond,
        (match d.tzOffsetMinutes with | none => [] | some o => renderOffset o)) := by
    by_cases hu : d.microsecond = 0
    · rw [if_pos hu, List.nil_append, hu]
      apply parseFrac_zero
      match hmz : d.tzOffsetMinutes with
      | none => intro c hc; simp at hc
      | some o =>
        intro c hc
        simp only [renderOffset, List.head?_cons, Option.mem_def, Option.some.injEq] at hc
        subst hc
        split <;> decide
    · rw [if_neg hu, List.cons_append]
      simp only [parseFrac, ite_true, if_true]
      rw [parse6_pad6 _ h10]
  have htz : parseTZ (match d.tzOffsetMinutes with | none => [] | some o => renderOffset o) =
      some (d.tzOffsetMinutes, []) := by
    match hmz : d.tzOffsetMinutes with
    | none => rfl
    | some o =>
      exact parseTZ_renderOffset o (h11 o (by rw [hmz]; rfl))
  have hdate : parseDate (isoformatL d) = some (d.year, d.month, d.day,
      'T' :: (pad2 d.hour ++ (':' :: (pad2 d.minute ++ (':' :: (pad2 d.second ++
      ((if d.microsecond = 0 then [] else '.' :: pad6 d.microsecond) ++
      (match d.tzOffsetMinutes with | none => [] | some o => renderOffset o)))))))) := by
    simp only [isoformatL, parseDate, Option.bind_eq_bind]
    rw [parse4_pad4 _ (by omega)]
    simp only [Option.some_bind, expectChar, ite_true, if_true]
    rw [parse2_pad2 _ (by omega)]
    simp only [Option.some_bind, expectChar, ite_true, if_true]
    rw [parse2_pad2 _ (by omega)]
    simp only [Option.some_bind]
  have htime : ∀ r : List Char, parseTime (pad2 d.hour ++ (':' :: (pad2 d.minute ++
      (':' :: (pad2 d.second ++ r))))) = some (d.hour, d.minute, d.second, r) := by
    intro r
    simp only [parseTime, Option.bind_eq_bind]
    rw [parse2_pad2 _ (by omega)]
    simp only [Option.some_bind, expectChar, ite_true, if_true]
    rw [parse2_pad2 _ (by omega)]
    simp only [Option.some_bind, expectChar, ite_true, if_true]
    rw [parse2_pad2 _ (by omega)]
    simp only [Option.some_bind]
  simp only [fromisoformatL, Option.bind_eq_bind]
  rw [hdate]
  simp only [Option.some_bind, expectChar, ite_true, if_true]
  rw [htime]
  simp only [Option.some_bind]
  rw [hfrac]
  simp only [Option.some_bind]
  rw [htz]
  simp only [Option.some_bind]
  rw [if_pos ⟨h1, h3, h4, h5, h6, h7, h8, h9, trivial⟩]

/-! ### JSON values and the unified records -/

/-- JSON-ish values appearing in payloads and serialized dictionaries. -/
inductive JVal
  | null
  | jstr (s : String)
  | jnum (q : ℚ)
  | jint (n : Int)
  | jbool (b : Bool)
  | jdict (fields : List (String × JVal))
  | jarr (xs : List JVal)

/-- Serialize an optional string. -/
def optStr : Option String → JVal
  | none => .null
  | some s => .jstr s

/-- Serialize an optional float (modelled as a rational). -/
def optQ : Option ℚ → JVal
  | none => .null
  | some q => .jnum q

/-- Serialize an optional integer. -/
def optInt : Option Int → JVal
  | none => .null
  | some n => .jint n

/-- `self.timestamp.isoformat() if self.timestamp else None` (a `datetime`
is always truthy, so this is exactly a `None` test). -/
def optDT : Option PyDateTime → JVal
  | none => .null
  | some t => .jstr (isoformat t)

/-- `GPSLocation` dataclass from `models.py`. -/
structure GPSLocation where
  device_id : String
  provider : GPSProvider
  latitude : Option ℚ := none
  longitude : Option ℚ := none
  altitude : Option ℚ := none
  speed : Option ℚ := none
  course : Option Int := none
  battery : Option Int := none
  timestamp : Option PyDateTime := none
  address : Option String := none
  odometer : Option ℚ := none
  is_moving : Bool := false
  is_gps_fix : Bool := true
  hdop : Option ℚ := none
  raw_data : List (String × JVal) := []

/-- `GPSLocation.to_dict` from `models.py`: fourteen keys, no `raw_data`. -/
def GPSLocation.to_dict (l : GPSLocation) : List (String × JVal) :=
  [("device_id", .jstr l.device_id),
   ("provider", .jstr l.provider.value),
   ("latitude", optQ l.latitude),
   ("longitude", optQ l.longitude),
   ("altitude", optQ l.altitude),
   ("speed", optQ l.speed),
   ("course", optInt l.course),
   ("battery", optInt l.battery),
   ("timestamp", optDT l.timestamp),
   ("address", optStr l.address),
   ("odometer", optQ l.odometer),
   ("is_moving", .jbool l.is_moving),
   ("is_gps_fix", .jbool l.is_gps_fix),
   ("hdop", optQ l.hdop)]

/-- `GPSDevice` dataclass from `models.py`. -/
structure GPSDevice where
  device_id : String
  provider : GPSProvider
  name : Option String := none
  imsi : Option String := none
  status : Option String := none
  device_type : Option String := none
  last_location : Option GPSLocation := none
  raw_data : List (String × JVal) := []

/-- `GPSDevice.to_dict` from `models.py`. -/
def GPSDevice.to_dict (d : GPSDevice) : List (String × JVal) :=
  [("device_id", .jstr d.device_id),
   ("provider", .jstr d.provider.value),
   ("name", optStr d.name),
   ("imsi", optStr d.imsi),
   ("status", optStr d.status),
   ("device_type", optStr d.device_type),
   ("last_location",
    match d.last_location with
    | none => .null
    | some loc => .jdict loc.to_dict)]

/-! ## REST facade serialization (`src/server.py`)

The facade does not return `to_dict`; it projects through the pydantic
response models `LocationResponse` / `DeviceResponse`, which carry fewer
fields. -/

/-- `_location_to_response` + `LocationResponse` (`server.py`): thirteen
fields, no `hdop` and no raw bag. -/
def location_to_response (l : GPSLocation) : List (String × JVal) :=
  [("device_id", .jstr l.device_id),
   ("provider", .jstr l.provider.value),
   ("latitude", optQ l.latitude),
   ("longitude", optQ l.longitude),
   ("altitude", optQ l.altitude),
   ("speed", optQ l.speed),
   ("course", optInt l.course),
   ("battery", optInt l.battery),
   ("timestamp", optDT l.timestamp),
   ("address", optStr l.address),
   ("odometer", optQ l.odometer),
   ("is_moving", .jbool l.is_moving),
   ("is_gps_fix", .jbool l.is_gps_fix)]

/-- `_device_to_response` + `DeviceResponse` (`server.py`): five fields,
no `imsi`, no `device_type`, no raw bag. -/
def device_to_response (d : GPSDevice) : List (String × JVal) :=
  [("device_id", .jstr d.device_id),
   ("provider", .jstr d.provider.value),
   ("name", optStr d.name),
   ("status", optStr d.status),
   ("last_location",
    match d.last_location with
    | none => .null
    | some loc => .jdict (location_to_response loc))]

/-! ## Claim C6: public serialization of a Location -/

/-- Validity of an optional timestamp. -/
def ValidOptDT : Option PyDateTime → Prop
  | none => True
  | some t => ValidDT t

instance : (o : Option PyDateTime) → Decidable (ValidOptDT o)
  | none => isTrue trivial
  | some t => (inferInstance : Decidable (ValidDT t))

/-- What claim C6 asserts of one Location's `to_dict` output. -/
def C6Statement (loc : GPSLocation) : Prop :=
  List.lookup ("provider") loc.to_dict = some (JVal.jstr loc.provider.value)
  ∧ (loc.provider.value = "trackimo" ∨ loc.provider.value = "arvento")
  ∧ loc.provider.value.toList.all Char.isLower = true
  ∧ "raw_data" ∉ loc.to_dict.map Prod.fst
  ∧ (loc.timestamp = none → List.lookup ("timestamp") loc.to_dict = some JVal.null)
  ∧ (∀ t, loc.timestamp = some t →
      List.lookup ("timestamp") loc.to_dict = some (JVal.jstr (isoformat t))
      ∧ fromisoformat (isoformat t) = some t)

/-- C6: `GPSLocation.to_dict` represents the provider tag as its canonical
lowercase string, represents the timestamp as an ISO-8601 string from which
`fromisoformat` recovers the original value exactly (or null when absent),
and omits the `raw_data` bag from the output. -/
theorem claim_C6 (loc : GPSLocation) (hv : ValidOptDT loc.timestamp) :
    C6Statement loc := by
  refine ⟨?_, ?_, ?_, ?_, ?_, ?_⟩
  · simp [GPSLocation.to_dict, List.lookup]
  · cases loc.provider
    · exact Or.inl rfl
    · exact Or.inr rfl
  · cases loc.provider <;> decide
  · simp [GPSLocation.to_dict]
  · intro h
    simp [GPSLocation.to_dict, List.lookup, h, optDT]
  · intro t ht
    rw [ht] at hv
    constructor
    · simp [GPSLocation.to_dict, List.lookup, ht, optDT]
    · show fromisoformatL (isoformatL t) = some t
      exact fromisoformatL_isoformatL t hv

/-- Concrete Location used to witness C6. -/
def c6loc : GPSLocation :=
  { device_id := "123456"
    provider := .trackimo
    latitude := some (40978/1000)
    timestamp := some ⟨2023, 6, 1, 3, 42, 23, 0, some 0⟩
    hdop := some (6/5)
    raw_data := [("vendor_field", .jstr "raw")] }

theorem claim_C6_witness : ValidOptDT c6loc.timestamp ∧ C6Statement c6loc :=
  ⟨by decide, claim_C6 c6loc (by decide)⟩

/-! ## Claim C8: facade JSON field lists

The facade serializes through `LocationResponse` / `DeviceResponse`, which
drop `hdop` (Location) and `imsi` / `device_type` (Device) relative to the
§3 data model, so the claimed field lists are wrong. -/

/-- A Location whose `hdop` is set, to show the facade output drops it. -/
def c8loc : GPSLocation :=
  { device_id := "77"
    provider := .trackimo
    hdop := some (21/10) }

/-- A Device with `imsi` and `device_type` set, dropped by the facade. -/
def c8dev : GPSDevice :=
  { device_id := "77"
    provider := .trackimo
    imsi := some "286016312345678"
    device_type := some "tracker" }

theorem claim_C8_counterexample :
    "hdop" ∉ (location_to_response c8loc).map Prod.fst
    ∧ "imsi" ∉ (device_to_response c8dev).map Prod.fst
    ∧ "device_type" ∉ (device_to_response c8dev).map Prod.fst := by
  refine ⟨?_, ?_, ?_⟩ <;> decide

/-- C8 (amended): the facade Location body carries exactly the §3 fields
minus the raw bag **and minus `hdop`**; the Device body carries exactly the
§3 fields minus the raw bag **and minus the secondary identifier and device
type**; timestamps serialize as ISO-8601 strings or null. -/
theorem claim_C8_amended (loc : GPSLocation) (dev : GPSDevice) :
    (location_to_response loc).map Prod.fst =
      ["device_id", "provider", "latitude", "longitude", "altitude", "speed",
       "course", "battery", "timestamp", "address", "odometer", "is_moving",
       "is_gps_fix"]
    ∧ (device_to_response dev).map Prod.fst =
      ["device_id", "provider", "name", "status", "last_location"]
    ∧ List.lookup ("timestamp") (location_to_response loc) = some (optDT loc.timestamp)
    ∧ optDT none = JVal.null
    ∧ (∀ t, optDT (some t) = JVal.jstr (isoformat t)) := by
  refine ⟨rfl, rfl, ?_, rfl, fun t => rfl⟩
  simp [location_to_response, List.lookup]

/-! ## Trackimo adapter (`src/parsers/trackimo_parser.py`) -/

/-- An HTTP response: status code and decoded JSON body
(`response.json() if response.text else {}`). -/
structure HttpResponse where
  status : Nat
  body : JVal

/-- Observable outcome of one `_api_request` call: the returned value,
how many times the HTTP request was sent, and how many times
`_refresh_access_token` was invoked. -/
structure ApiOutcome where
  result : Option JVal
  sends : Nat
  refreshCalls : Nat

/-- `_api_request` control flow (trackimo_parser.py lines 170-217).
`resps n` is the status/body the vendor returns for the `n`-th send of this
request. Before sending, an authenticated call whose token is expired
refreshes proactively; a 401 on an authenticated call triggers one refresh
and one resend; the final response is returned iff its status is 2xx. -/
def api_request (no_auth : Bool) (tokenExpired : Bool) (resps : Nat → HttpResponse) :
    ApiOutcome :=
  let proactive : Nat := if !no_auth && tokenExpired then 1 else 0
  let r1 := resps 0
  if r1.status == 401 && !no_auth then
    let r2 := resps 1
    { result := if 200 ≤ r2.status ∧ r2.status < 300 then some r2.body else none
      sends := 2
      refreshCalls := proactive + 1 }
  else
    { result := if 200 ≤ r1.status ∧ r1.status < 300 then some r1.body else none
      sends := 1
      refreshCalls := proactive }

/-- C1: on an authenticated call (`no_auth = false`), a 401 response causes
exactly one (reactive) token refresh and exactly one retry — two sends in
total, never more — and if the retry also returns 401 the call returns
`None` instead of refreshing or retrying again. -/
theorem claim_C1 (tokenExpired : Bool) (resps : Nat → HttpResponse)
    (h401 : (resps 0).status = 401) :
    (api_request false tokenExpired resps).refreshCalls
      = (if tokenExpired then 1 else 0) + 1
    ∧ (api_request false tokenExpired resps).sends = 2
    ∧ ((resps 1).status = 401 →
        (api_request false tokenExpired resps).result = none) := by
  have hcond : ((resps 0).status == 401 && !false) = true := by
    simp [h401]
  refine ⟨?_, ?_, ?_⟩
  · simp only [api_request, hcond, if_true]
    cases tokenExpired <;> rfl
  · simp only [api_request, hcond, if_true]
  · intro h2
    simp only [api_request, hcond, if_true]
    have : ¬ (200 ≤ (resps 1).status ∧ (resps 1).status < 300) := by omega
    simp [this]

/-- Scripted responses answering 401 to every send. -/
def c1resps : Nat → HttpResponse := fun _ => { status := 401, body := .null }

theorem claim_C1_witness :
    (c1resps 0).status = 401
    ∧ ((api_request false false c1resps).refreshCalls = (if false then 1 else 0) + 1
      ∧ (api_request false false c1resps).sends = 2
      ∧ ((c1resps 1).status = 401 → (api_request false false c1resps).result = none)) :=
  ⟨rfl, claim_C1 false c1resps rfl⟩

/-! ### Location parsing (`_parse_location`) -/

/-- The fields `_parse_location` reads from a raw Trackimo location
payload; `none` models an absent key (or a JSON null). -/
structure TkLocRaw where
  device_id : Option Int := none
  time : Option Int := none
  updated : Option Int := none
  lat : Option ℚ := none
  lng : Option ℚ := none
  altitude : Option ℚ := none
  speed : Option ℚ := none
  speed_unit : Option String := none
  battery : Option Int := none
  moving : Option Bool := none
  gps : Option Bool := none
  hdop : Option ℚ := none

/-- Raw payload rendered into the diagnostics bag (`raw_data=data`). -/
def TkLocRaw.toJson (d : TkLocRaw) : List (String × JVal) :=
  [("device_id", optInt d.device_id), ("time", optInt d.time),
   ("updated", optInt d.updated), ("lat", optQ d.lat), ("lng", optQ d.lng),
   ("altitude", optQ d.altitude), ("speed", optQ d.speed),
   ("speed_unit", optStr d.speed_unit), ("battery", optInt d.battery),
   ("hdop", optQ d.hdop)]

/-- `datetime.fromtimestamp` at UTC: civil fields from an epoch-second
count (Howard Hinnant's `civil_from_days`). -/
def fromtimestamp (secs : Int) : PyDateTime :=
  let days := secs.fdiv 86400
  let rem := (secs - days * 86400).toNat
  let z := days + 719468
  let era := z.fdiv 146097
  let doe := (z - era * 146097).toNat
  let yoe := (doe - doe / 1460 + doe / 36524 - doe / 146096) / 365
  let doy := doe - (365 * yoe + yoe / 4 - yoe / 100)
  let mp := (5 * doy + 2) / 153
  let dy := doy - (153 * mp + 2) / 5 + 1
  let m := if mp < 10 then mp + 3 else mp - 9
  let y : Int := (yoe : Int) + era * 400 + (if m ≤ 2 then 1 else 0)
  { year := y.toNat, month := m, day := dy,
    hour := rem / 3600, minute := rem % 3600 / 60, second := rem % 60,
    microsecond := 0, tzOffsetMinutes := none }

/-- `datetime.fromtimestamp(ms / 1000.0)`: the millisecond remainder
becomes microseconds. -/
def fromtimestampMs (ms : Int) : PyDateTime :=
  { fromtimestamp (ms.fdiv 1000) with microsecond := (ms - ms.fdiv 1000 * 1000).toNat * 1000 }

/-- Python truthiness of an optional number (`if speed`). -/
def truthyQ : Option ℚ → Prop
  | none => False
  | some q => q ≠ 0

instance : (o : Option ℚ) → Decidable (truthyQ o)
  | none => isFalse (fun h => h)
  | some q => (inferInstance : Decidable (q ≠ 0))

/-- `_parse_location` (trackimo_parser.py lines 307-333). -/
def parse_location (device_id : String) (data : TkLocRaw) : GPSLocation :=
  let timestamp :=
    match data.time with
    | some t => some (fromtimestamp t)
    | none =>
      match data.updated with
      | some u => some (fromtimestampMs u)
      | none => none
  let speed_unit := data.speed_unit.getD "kph"
  let speed :=
    if truthyQ data.speed ∧ speed_unit = "mph" then
      data.speed.map (fun q => q * (160934 / 100000))
    else data.speed
  { device_id := device_id
    provider := .trackimo
    latitude := data.lat
    longitude := data.lng
    altitude := data.altitude
    speed := speed
    battery := data.battery
    timestamp := timestamp
    is_moving := data.moving.getD false
    is_gps_fix := data.gps.getD true
    hdop := data.hdop
    raw_data := data.toJson }

/-! ## Claim C9: mph → km/h speed conversion -/

/-- C9: a raw speed with unit flag `"mph"` is stored multiplied by exactly
1.60934 (stated exactly over ℚ, hence within any tolerance); with flag
`"kph"` or no flag, the speed is stored unchanged. -/
theorem claim_C9 (device_id : String) (data : TkLocRaw) :
    (data.speed_unit = some "mph" →
      (parse_location device_id data).speed
        = data.speed.map (fun q => q * (160934 / 100000)))
    ∧ (data.speed_unit = some "kph" →
      (parse_location device_id data).speed = data.speed)
    ∧ (data.speed_unit = none →
      (parse_location device_id data).speed = data.speed) := by
  refine ⟨?_, ?_, ?_⟩
  · intro hu
    by_cases hs : truthyQ data.speed
    · simp [parse_location, hu, hs]
    · match hsp : data.speed with
      | none => simp [parse_location, hu, hsp]
      | some q =>
        rw [hsp] at hs
        have hq : q = 0 := by
          by_contra hne
          exact hs hne
        subst hq
        simp [parse_location, hu, hsp, truthyQ]
  · intro hu
    simp [parse_location, hu, truthyQ]
  · intro hu
    simp [parse_location, hu, truthyQ]

/-- Raw payload with speed 10 flagged `"mph"`, as in the spec's example. -/
def c9data : TkLocRaw := { speed := some 10, speed_unit := some "mph" }

theorem claim_C9_witness :
    c9data.speed_unit = some "mph"
    ∧ (parse_location ("d1") c9data).speed
        = c9data.speed.map (fun q => q * (160934 / 100000))
    ∧ (parse_location ("d1") c9data).speed = some (160934 / 10000) := by
  refine ⟨rfl, (claim_C9 ("d1") c9data).1 rfl, ?_⟩
  rw [(claim_C9 ("d1") c9data).1 rfl]
  norm_num [c9data]

/-! ### Device listing (`get_devices`, `_parse_device`,
`_fetch_all_locations`) -/

/-- One entry of a device-listing page; `_parse_device` only reads
`deviceId` from it. -/
structure DeviceRaw where
  deviceId : Option Int := none

/-- Fields the per-device detail call supplies. -/
structure DeviceDetails where
  name : Option String := none
  imsi : Option String := none
  status : Option String := none
  devtype : Option String := none

/-- One entry of the batched `locations/filter` response. -/
structure TkLocEntry where
  device_id : Option Int := none
  loc : TkLocRaw := {}

/-- Vendor behaviour for the listing flow: per-page listing responses,
per-device detail responses, and the batched location-filter response
(`none` models a failed request or empty body). -/
structure TkEnv where
  pages : Nat → Option (List DeviceRaw)
  details : Int → Option DeviceDetails
  locations : Option (List TkLocEntry)

/-- Python-dict insertion semantics over an association list: replace in
place when the key exists, else append. -/
def dictInsert {α : Type} (k : String) (v : α) : List (String × α) → List (String × α)
  | [] => [(k, v)]
  | (k', v') :: rest => if k' = k then (k, v) :: rest else (k', v') :: dictInsert k v rest

/-- `DeviceRaw` rendered as the diagnostics bag. -/
def DeviceRaw.toJson (dr : DeviceRaw) : List (String × JVal) :=
  [("deviceId", optInt dr.deviceId)]

/-- `DeviceDetails` rendered as the diagnostics bag. -/
def DeviceDetails.toJson (d : DeviceDetails) : List (String × JVal) :=
  [("name", optStr d.name), ("imsi", optStr d.imsi),
   ("status", optStr d.status), ("type", optStr d.devtype)]

/-- `_parse_device`: fails on a falsy `deviceId` (absent or 0) before any
detail request; otherwise issues the detail request and builds the device
even when that request fails. -/
def parse_device (env : TkEnv) (dr : DeviceRaw) : Option GPSDevice :=
  match dr.deviceId with
  | none => none
  | some i =>
    if i = 0 then none
    else
      let details := env.details i
      some { device_id := toString i
             provider := .trackimo
             name := details.bind (·.name)
             imsi := details.bind (·.imsi)
             status := details.bind (·.status)
             device_type := details.bind (·.devtype)
             raw_data := match details with
               | some d => d.toJson
               | none => dr.toJson }

/-- The `for device_data in data` body of `get_devices`. -/
def pageFold (env : TkEnv) (data : List DeviceRaw)
    (reg : List (String × GPSDevice)) : List (String × GPSDevice) :=
  data.foldl (fun r dr =>
    match parse_device env dr with
    | none => r
    | some dev => dictInsert dev.device_id dev r) reg

/-- The `while True` pagination loop of `get_devices` (page size 20):
request a page (counted), stop on a falsy response, parse-and-register the
page, stop when the page is shorter than the limit, else continue with the
next page. `fuel` bounds the recursion and exceeds the page count in every
claim instance. -/
def get_devices_loop (env : TkEnv) (limit : Nat) :
    Nat → Nat → List (String × GPSDevice) → Nat → List (String × GPSDevice) × Nat
  | 0, _, reg, count => (reg, count)
  | fuel + 1, page, reg, count =>
    match env.pages page with
    | none => (reg, count + 1)
    | some data =>
      if data.isEmpty then (reg, count + 1)
      else
        let reg' := pageFold env data reg
        if data.length < limit then (reg', count + 1)
        else get_devices_loop env limit fuel (page + 1) reg' (count + 1)

/-- `self._devices[device_id].last_location = location`. -/
def dictSetLoc (k : String) (loc : GPSLocation) (l : List (String × GPSDevice)) :
    List (String × GPSDevice) :=
  l.map (fun p => if p.1 = k then (p.1, { p.2 with last_location := some loc }) else p)

/-- `_fetch_all_locations`: nothing to do on an empty registry; otherwise
one batched filter request, whose entries update `last_location` of
registered devices only. -/
def fetch_all_locations (env : TkEnv) (reg : List (String × GPSDevice)) :
    List (String × GPSDevice) × Nat :=
  if reg.isEmpty then (reg, 0)
  else
    match env.locations with
    | none => (reg, 1)
    | some entries =>
      (entries.foldl (fun r e =>
        match e.device_id with
        | none => r
        | some i =>
          let did := toString i
          if (r.lookup did).isSome then dictSetLoc did (parse_location did e.loc) r
          else r) reg, 1)

/-- The "unauthenticated" failure (`RuntimeError` from
`_ensure_authenticated`). -/
inductive AuthError
  | notAuthenticated
deriving DecidableEq, Repr

/-- Observable outcome of `get_devices`. -/
structure GetDevicesRes where
  result : Except AuthError (List GPSDevice)
  registry : List (String × GPSDevice)
  listingRequests : Nat
  locationRequests : Nat

/-- `get_devices` (trackimo_parser.py lines 232-263): fail fast while the
account id is unknown, else run the pagination loop and the batched
location fetch and return the registry values. -/
def tk_get_devices (env : TkEnv) (account_id : Option Int) (fuel : Nat)
    (reg : List (String × GPSDevice)) : GetDevicesRes :=
  match account_id with
  | none => ⟨.error .notAuthenticated, reg, 0, 0⟩
  | some _ =>
    let p := get_devices_loop env 20 fuel 1 reg 0
    let q := fetch_all_locations env p.1
    ⟨.ok (q.1.map Prod.snd), q.1, p.2, q.2⟩

/-- The device identifiers a page contributes (truthy `deviceId`, as
strings). -/
def pageDevIds (l : List DeviceRaw) : List String :=
  l.filterMap (fun dr =>
    match dr.deviceId with
    | some i => if i = 0 then none else some (toString i)
    | none => none)

theorem mem_keys_dictInsert {α : Type} (a k : String) (v : α) (l : List (String × α)) :
    a ∈ (dictInsert k v l).map Prod.fst ↔ a = k ∨ a ∈ l.map Prod.fst := by
  induction l with
  | nil => simp [dictInsert]
  | cons p rest ih =>
    obtain ⟨k', v'⟩ := p
    by_cases h : k' = k
    · subst h
      simp [dictInsert]
    · simp only [dictInsert, if_neg h, List.map_cons, List.mem_cons, ih]
      tauto

theorem mem_keys_pageFold (env : TkEnv) (data : List DeviceRaw)
    (reg : List (String × GPSDevice)) (a : String) :
    a ∈ (pageFold env data reg).map Prod.fst
      ↔ a ∈ pageDevIds data ∨ a ∈ reg.map Prod.fst := by
  induction data generalizing reg with
  | nil => simp [pageFold, pageDevIds]
  | cons dr rest ih =>
    match hdr : dr.deviceId with
    | none =>
      simp only [pageFold, List.foldl_cons, parse_device, hdr]
      rw [show pageDevIds (dr :: rest) = pageDevIds rest by simp [pageDevIds, hdr]]
      exact ih reg
    | some i =>
      by_cases hz : i = 0
      · simp only [pageFold, List.foldl_cons, parse_device, hdr, if_pos hz]
        rw [show pageDevIds (dr :: rest) = pageDevIds rest by
          simp [pageDevIds, hdr, hz]]
        exact ih reg
      · simp only [pageFold, List.foldl_cons, parse_device, hdr, if_neg hz]
        rw [show pageDevIds (dr :: rest) = toString i :: pageDevIds rest by
          simp [pageDevIds, hdr, hz]]
        show a ∈ (pageFold env rest (dictInsert (toString i) _ reg)).map Prod.fst ↔ _
        rw [ih, mem_keys_dictInsert]
        simp only [List.mem_cons]
        tauto

theorem keys_dictSetLoc (k : String) (loc : GPSLocation) (l : List (String × GPSDevice)) :
    (dictSetLoc k loc l).map Prod.fst = l.map Prod.fst := by
  induction l with
  | nil => rfl
  | cons p rest ih =>
    simp only [dictSetLoc, List.map_cons] at ih ⊢
    rw [ih]
    by_cases h : p.1 = k
    · simp [h]
    · simp [h]

theorem keys_locFold (entries : List TkLocEntry) (reg : List (String × GPSDevice)) :
    (entries.foldl (fun r e =>
      match e.device_id with
      | none => r
      | some i =>
        let did := toString i
        if (r.lookup did).isSome then dictSetLoc did (parse_location did e.loc) r
        else r) reg).map Prod.fst = reg.map Prod.fst := by
  induction entries generalizing reg with
  | nil => rfl
  | cons e rest ih =>
    simp only [List.foldl_cons]
    match he : e.device_id with
    | none => exact ih reg
    | some i =>
      by_cases hl : ((reg.lookup (toString i)).isSome : Prop)
      · simp only [if_pos hl]
        rw [ih, keys_dictSetLoc]
      · simp only [if_neg hl]
        exact ih reg

theorem keys_fetch_all_locations (env : TkEnv) (reg : List (String × GPSDevice)) :
    (fetch_all_locations env reg).1.map Prod.fst = reg.map Prod.fst := by
  match h : reg.isEmpty with
  | true => simp [fetch_all_locations, h]
  | false =>
    simp only [fetch_all_locations, h, Bool.false_eq_true, if_false]
    match env.locations with
    | none => rfl
    | some entries => exact keys_locFold entries reg

/-- Registered pairs map keys to devices carrying that id. -/
def Coherent (l : List (String × GPSDevice)) : Prop :=
  ∀ p ∈ l, p.2.device_id = p.1

theorem coherent_dictInsert (k : String) (v : GPSDevice)
    (l : List (String × GPSDevice)) (hv : v.device_id = k) (hl : Coherent l) :
    Coherent (dictInsert k v l) := by
  induction l with
  | nil =>
    intro p hp
    simp only [dictInsert, List.mem_singleton] at hp
    subst hp
    exact hv
  | cons q rest ih =>
    obtain ⟨k', v'⟩ := q
    intro p hp
    by_cases h : k' = k
    · subst h
      simp only [dictInsert, if_pos rfl] at hp
      rcases List.mem_cons.mp hp with h1 | h1
      · subst h1; exact hv
      · exact hl p (List.mem_cons_of_mem _ h1)
    · simp only [dictInsert, if_neg h] at hp
      rcases List.mem_cons.mp hp with h1 | h1
      · subst h1
        exact hl (k', v') (List.mem_cons_self _ _)
      · exact ih (fun r hr => hl r (List.mem_cons_of_mem _ hr)) p h1

theorem coherent_pageFold (env : TkEnv) (data : List DeviceRaw)
    (reg : List (String × GPSDevice)) (hreg : Coherent reg) :
    Coherent (pageFold env data reg) := by
  induction data generalizing reg with
  | nil => exact hreg
  | cons dr rest ih =>
    simp only [pageFold, List.foldl_cons]
    match hdr : parse_device env dr with
    | none => exact ih reg hreg
    | some dev =>
      refine ih _ (coherent_dictInsert _ _ _ rfl hreg)

theorem coherent_dictSetLoc (k : String) (loc : GPSLocation)
    (l : List (String × GPSDevice)) (hl : Coherent l) :
    Coherent (dictSetLoc k loc l) := by
  intro p hp
  simp only [dictSetLoc, List.mem_map] at hp
  obtain ⟨q, hq, hpq⟩ := hp
  by_cases h : q.1 = k
  · rw [if_pos h] at hpq
    subst hpq
    exact hl q hq
  · rw [if_neg h] at hpq
    subst hpq
    exact hl q hq

theorem coherent_locFold (entries : List TkLocEntry)
    (reg : List (String × GPSDevice)) (hreg : Coherent reg) :
    Coherent (entries.foldl (fun r e =>
      match e.device_id with
      | none => r
      | some i =>
        let did := toString i
        if (r.lookup did).isSome then dictSetLoc did (parse_location did e.loc) r
        else r) reg) := by
  induction entries generalizing reg with
  | nil => exact hreg
  | cons e rest ih =>
    simp only [List.foldl_cons]
    match he : e.device_id with
    | none => exact ih reg hreg
    | some i =>
      by_cases hl : ((reg.lookup (toString i)).isSome : Prop)
      · simp only [if_pos hl]
        exact ih _ (coherent_dictSetLoc _ _ _ hreg)
      · simp only [if_neg hl]
        exact ih reg hreg

theorem coherent_fetch_all_locations (env : TkEnv)
    (reg : List (String × GPSDevice)) (hreg : Coherent reg) :
    Coherent (fetch_all_locations env reg).1 := by
  match h : reg.isEmpty with
  | true => simpa [fetch_all_locations, h] using hreg
  | false =>
    simp only [fetch_all_locations, h, Bool.false_eq_true, if_false]
    match env.locations with
    | none => exact hreg
    | some entries => exact coherent_locFold entries reg hreg

/-- Keys are never removed by the pagination loop. -/
theorem mem_keys_loop (env : TkEnv) (limit : Nat) :
    ∀ (fuel page count : Nat) (reg : List (String × GPSDevice)) (a : String),
      a ∈ reg.map Prod.fst →
      a ∈ (get_devices_loop env limit fuel page reg count).1.map Prod.fst := by
  intro fuel
  induction fuel with
  | zero => intro page count reg a ha; exact ha
  | succ f ih =>
    intro page count reg a ha
    simp only [get_devices_loop]
    match env.pages page with
    | none => exact ha
    | some data =>
      by_cases hd : data.isEmpty
      · simp only [hd, if_true]
        exact ha
      · simp only [hd, Bool.false_eq_true, if_false]
        by_cases hlen : data.length < limit
        · simp only [if_pos hlen]
          exact (mem_keys_pageFold env data reg a).mpr (Or.inr ha)
        · simp only [if_neg hlen]
          exact ih _ _ _ a ((mem_keys_pageFold env data reg a).mpr (Or.inr ha))

/-! ## Claim C2: paginated device listing -/

/-- What C2 asserts of the two-page scenario. -/
def C2Statement (env : TkEnv) (account_id : Option Int) (fuel : Nat)
    (p1 p2 : List DeviceRaw) : Prop :=
  (tk_get_devices env account_id fuel []).listingRequests = 2
  ∧ (∀ s, s ∈ (tk_get_devices env account_id fuel []).registry.map Prod.fst
      ↔ s ∈ pageDevIds p1 ++ pageDevIds p2)
  ∧ (tk_get_devices env account_id fuel []).result
      = .ok ((tk_get_devices env account_id fuel []).registry.map Prod.snd)
  ∧ (∀ q ∈ (tk_get_devices env account_id fuel []).registry, q.2.device_id = q.1)

/-- C2: with page 1 of exactly 20 devices and page 2 shorter, a fresh
`get_devices` issues exactly two listing requests and returns the union of
both pages (every listed truthy device id, and nothing else, is
registered; the returned devices are exactly the registry values). -/
theorem claim_C2 (env : TkEnv) (acc : Int) (fuel : Nat) (p1 p2 : List DeviceRaw)
    (h1 : env.pages 1 = some p1) (hl1 : p1.length = 20)
    (h2 : env.pages 2 = some p2) (hl2 : p2.length < 20)
    (hfuel : 2 ≤ fuel) :
    C2Statement env (some acc) fuel p1 p2 := by
  obtain ⟨f, rfl⟩ : ∃ f, fuel = f + 2 := ⟨fuel - 2, by omega⟩
  have hne1 : p1.isEmpty = false := by
    cases p1 with
    | nil => simp at hl1
    | cons a l => rfl
  have hnl1 : ¬ p1.length < 20 := by omega
  have hstep2 : get_devices_loop env 20 (f + 1) 2 (pageFold env p1 []) 1
      = (pageFold env p2 (pageFold env p1 []), 2) := by
    simp only [get_devices_loop, h2]
    by_cases hp2 : p2.isEmpty
    · have : p2 = [] := List.isEmpty_iff.mp hp2
      subst this
      simp [pageFold]
    · simp only [hp2, Bool.false_eq_true, if_false, if_pos hl2]
  have hloop : get_devices_loop env 20 (f + 2) 1 [] 0
      = (pageFold env p2 (pageFold env p1 []), 2) := by
    have : get_devices_loop env 20 (f + 2) 1 [] 0
        = get_devices_loop env 20 (f + 1) 2 (pageFold env p1 []) 1 := by
      simp only [get_devices_loop, h1, hne1, Bool.false_eq_true, if_false,
        if_neg hnl1]
    rw [this, hstep2]
  have hreg : (tk_get_devices env (some acc) (f + 2) []).registry
      = (fetch_all_locations env (pageFold env p2 (pageFold env p1 []))).1 := by
    simp only [tk_get_devices, hloop]
  refine ⟨?_, ?_, ?_, ?_⟩
  · simp only [tk_get_devices, hloop]
  · intro s
    rw [hreg, keys_fetch_all_locations]
    rw [mem_keys_pageFold, mem_keys_pageFold]
    simp [List.mem_append]
    tauto
  · simp only [tk_get_devices, hloop]
  · rw [hreg]
    exact fun q hq =>
      coherent_fetch_all_locations env _
        (coherent_pageFold env p2 _ (coherent_pageFold env p1 [] (by intro p hp; simp at hp)))
        q hq

/-- A fixture vendor: page 1 returns device ids 1..20, page 2 returns
id 21, detail and location calls fail. -/
def c2env : TkEnv :=
  { pages := fun p =>
      if p = 1 then some ((List.range 20).map (fun i => ⟨some ((i : Int) + 1)⟩))
      else if p = 2 then some [⟨some 21⟩]
      else none
    details := fun _ => none
    locations := none }

theorem claim_C2_witness :
    c2env.pages 1 = some ((List.range 20).map (fun i => ⟨some ((i : Int) + 1)⟩))
    ∧ ((List.range 20).map (fun i => (⟨some ((i : Int) + 1)⟩ : DeviceRaw))).length = 20
    ∧ c2env.pages 2 = some [⟨some 21⟩]
    ∧ ([(⟨some 21⟩ : DeviceRaw)]).length < 20
    ∧ 2 ≤ 2
    ∧ C2Statement c2env (some 5) 2
        ((List.range 20).map (fun i => ⟨some ((i : Int) + 1)⟩)) [⟨some 21⟩] :=
  ⟨rfl, by decide, rfl, by decide, by decide,
    claim_C2 c2env 5 2 _ _ rfl (by decide) rfl (by decide) (by decide)⟩

/-! ### The other authenticated operations -/

/-- `get_device_location`: `_ensure_authenticated` first, then one
resource request whose truthy body is parsed. The second component counts
resource-endpoint requests issued. -/
def tk_get_device_location (account_id : Option Int) (resp : Option TkLocRaw)
    (device_id : String) : Except AuthError (Option GPSLocation) × Nat :=
  match account_id with
  | none => (.error .notAuthenticated, 0)
  | some _ => (.ok (resp.map (parse_location device_id)), 1)

/-- `get_device_history`: `_ensure_authenticated` first, then one request;
a falsy body yields the empty list, not an error. -/
def tk_get_device_history (account_id : Option Int) (resp : Option (List TkLocRaw))
    (device_id : String) : Except AuthError (List GPSLocation) × Nat :=
  match account_id with
  | none => (.error .notAuthenticated, 0)
  | some _ => (.ok ((resp.getD []).map (parse_location device_id)), 1)

/-- `send_beep`: `_ensure_authenticated` first, then one ops request;
returns whether the response body was non-`None`. -/
def tk_send_beep (account_id : Option Int) (resp : Option JVal) :
    Except AuthError Bool × Nat :=
  match account_id with
  | none => (.error .notAuthenticated, 0)
  | some _ => (.ok resp.isSome, 1)

/-- `request_location`: same shape as `send_beep`. -/
def tk_request_location (account_id : Option Int) (resp : Option JVal) :
    Except AuthError Bool × Nat :=
  match account_id with
  | none => (.error .notAuthenticated, 0)
  | some _ => (.ok resp.isSome, 1)

/-! ## Claim C7: fail fast before the account identity is known -/

/-- C7: while `_account_id` is still `None`, every authenticated operation
(`get_devices`, `get_device_location`, `get_device_history`, `send_beep`,
`request_location`) fails with the distinct unauthenticated error, issues
zero requests to resource endpoints, and leaves the registry unchanged. -/
theorem claim_C7 (env : TkEnv) (fuel : Nat) (reg : List (String × GPSDevice))
    (locResp : Option TkLocRaw) (histResp : Option (List TkLocRaw))
    (beepResp locateResp : Option JVal) (device_id : String) :
    tk_get_devices env none fuel reg
      = ⟨.error .notAuthenticated, reg, 0, 0⟩
    ∧ tk_get_device_location none locResp device_id = (.error .notAuthenticated, 0)
    ∧ tk_get_device_history none histResp device_id = (.error .notAuthenticated, 0)
    ∧ tk_send_beep none beepResp = (.error .notAuthenticated, 0)
    ∧ tk_request_location none locateResp = (.error .notAuthenticated, 0) :=
  ⟨rfl, rfl, rfl, rfl, rfl⟩

/-! ### Connect / login / refresh flows -/

/-- The endpoints the authentication flows can hit. -/
inductive Endpoint
  | loginPost      -- POST …/internal/v2/user/login
  | oauthAuth      -- GET  oauth2/auth
  | oauthToken     -- POST oauth2/token
  | oauthRefresh   -- POST oauth2/token/refresh
  | usersMe        -- GET  internal users/me
deriving DecidableEq, Repr

/-- Vendor behaviour during authentication: which step succeeds. -/
structure ConnectEnv where
  loginOk : Bool      -- login POST returns HTTP 200
  codeOk : Bool       -- oauth2/auth body contains "code"
  tokenOk : Bool      -- oauth2/token body contains "access_token"
  refreshOk : Bool    -- oauth2/token/refresh body contains "access_token"

/-- `_login` (trackimo_parser.py lines 74-131): login POST, then the OAuth
code exchange, then the token exchange, then `_get_user_info`; any step
failing fails the whole call at that point. Returns success plus the trace
of endpoints hit, in order. -/
def tk_login (env : ConnectEnv) : Bool × List Endpoint :=
  if !env.loginOk then (false, [.loginPost])
  else if !env.codeOk then (false, [.loginPost, .oauthAuth])
  else if !env.tokenOk then (false, [.loginPost, .oauthAuth, .oauthToken])
  else (true, [.loginPost, .oauthAuth, .oauthToken, .usersMe])

/-- `_refresh_access_token` (lines 139-162): with no stored refresh token,
fall through to `_login`; otherwise POST the refresh endpoint and, on
success, fetch user info; on refresh failure fall back to `_login`
unconditionally. -/
def tk_refresh_access_token (hasRefreshToken : Bool) (env : ConnectEnv) :
    Bool × List Endpoint :=
  if !hasRefreshToken then tk_login env
  else if env.refreshOk then (true, [.oauthRefresh, .usersMe])
  else
    let r := tk_login env
    (r.1, .oauthRefresh :: r.2)

/-- Python truthiness of an optional string (`if not username`). -/
def truthyStr : Option String → Bool
  | none => false
  | some s => s ≠ ""

/-- `ValueError` / `TypeError`. -/
inductive PyError
  | valueError
  | typeError
deriving DecidableEq, Repr

/-- `connect` (lines 54-72): a refresh token selects `_restore_session`
(which stores it and calls `_refresh_access_token`); otherwise missing
credentials raise `ValueError`, else `_login` runs. -/
def tk_connect (username password refresh_token : Option String)
    (env : ConnectEnv) : Except PyError (Bool × List Endpoint) :=
  if truthyStr refresh_token then .ok (tk_refresh_access_token true env)
  else if !truthyStr username || !truthyStr password then .error .valueError
  else .ok (tk_login env)

/-! ## Claim C5: refresh-token connect path -/

/-- A vendor for which every authentication endpoint fails. -/
def c5envBad : ConnectEnv :=
  { loginOk := false, codeOk := false, tokenOk := false, refreshOk := false }

/-- C5 counterexample: connecting with a refresh token and **no**
credentials, when the refresh endpoint fails, still attempts the login
flow (the trace hits the login endpoint), contradicting the claim that the
connect fails without attempting the login flow. -/
theorem claim_C5_counterexample :
    tk_connect none none (some ("rt")) c5envBad
      = .ok (false, [.oauthRefresh, .loginPost])
    ∧ Endpoint.loginPost ∈ [Endpoint.oauthRefresh, Endpoint.loginPost] := by
  refine ⟨?_, by decide⟩
  rfl

/-- C5 (amended): on the refresh-token connect path the adapter skips
login/OAuth and POSTs directly to the refresh endpoint; if the refresh
fails it falls back to the full login flow **unconditionally** — whether or
not credentials were supplied — and the connect result is then the login
flow's result. -/
theorem claim_C5_amended (username password : Option String) (rt : String)
    (hrt : rt ≠ "") (env : ConnectEnv) :
    (env.refreshOk = true →
      tk_connect username password (some rt) env
        = .ok (true, [.oauthRefresh, .usersMe]))
    ∧ (env.refreshOk = false →
      tk_connect username password (some rt) env
        = .ok ((tk_login env).1, .oauthRefresh :: (tk_login env).2)
      ∧ Endpoint.loginPost ∈ .oauthRefresh :: (tk_login env).2) := by
  have htr : truthyStr (some rt) = true := by
    simp [truthyStr, hrt]
  constructor
  · intro h
    simp [tk_connect, htr, tk_refresh_access_token, h]
  · intro h
    constructor
    · simp [tk_connect, htr, tk_refresh_access_token, h]
    · have : Endpoint.loginPost ∈ (tk_login env).2 := by
        simp only [tk_login]
        by_cases h1 : env.loginOk
        · by_cases h2 : env.codeOk
          · by_cases h3 : env.tokenOk
            · simp [h1, h2, h3]
            · simp [h1, h2, h3]
          · simp [h1, h2]
        · simp [h1]
      exact List.mem_cons_of_mem _ this

theorem claim_C5_amended_witness :
    ("rt" : String) ≠ ""
    ∧ c5envBad.refreshOk = false
    ∧ (tk_connect none none (some ("rt")) c5envBad
        = .ok ((tk_login c5envBad).1, .oauthRefresh :: (tk_login c5envBad).2)
      ∧ Endpoint.loginPost ∈ .oauthRefresh :: (tk_login c5envBad).2) :=
  ⟨by decide, rfl, (claim_C5_amended none none ("rt") (by decide) c5envBad).2 rfl⟩

/-! ## Claim C3: connect handlers and adapter construction

`server.py` constructs `TrackimoParser(client_id=…, client_secret=…,
offline=…)` in both `trackimo_connect` and `trackimo_restore`, but
`TrackimoParser.__init__` (trackimo_parser.py line 38) accepts only
`client_id` and `client_secret`; Python raises `TypeError` for the
unexpected keyword before any connect is attempted. `ArventoParser.__init__`
accepts all five keywords `arvento_connect` passes. -/

/-- Keyword parameters `TrackimoParser.__init__` accepts. -/
def trackimo_init_params : List String := ["client_id", "client_secret"]

/-- Keyword parameters `ArventoParser.__init__` accepts. -/
def arvento_init_params : List String := ["host", "username", "pin1", "pin2", "offline"]

/-- Python's keyword-argument check at call time: any supplied keyword the
callee does not accept raises `TypeError`. -/
def call_init (accepted supplied : List String) : Except PyError Unit :=
  if supplied.all (fun k => accepted.contains k) then .ok () else .error .typeError

/-- Keywords `trackimo_connect` (and `trackimo_restore`) supply. -/
def trackimo_connect_kwargs : List String := ["client_id", "client_secret", "offline"]

/-- Keywords `arvento_connect` supplies. -/
def arvento_connect_kwargs : List String := ["host", "username", "pin1", "pin2", "offline"]

/-- What a facade connect handler can produce: a success, an
`HTTPException` (the single failed-connect signal), or an unhandled
exception escaping the handler. -/
inductive HandlerOutcome
  | connected
  | httpError (status : Nat)
  | crash (e : PyError)
deriving DecidableEq, Repr

/-- `trackimo_connect` (server.py lines 122-149): construct the adapter
(kwarg check), connect, and install into `parsers` only on success.
`newId` identifies the fresh adapter instance; the registry maps provider
name → instance. -/
def trackimo_connect_handler (connectOk : Bool) (newId : Nat)
    (reg : List (String × Nat)) : HandlerOutcome × List (String × Nat) :=
  match call_init trackimo_init_params trackimo_connect_kwargs with
  | .error e => (.crash e, reg)
  | .ok _ =>
    if connectOk then (.connected, dictInsert ("trackimo") newId reg)
    else (.httpError 401, reg)

/-- `trackimo_restore` (server.py lines 152-174): same construction, same
kwargs. -/
def trackimo_restore_handler (connectOk : Bool) (newId : Nat)
    (reg : List (String × Nat)) : HandlerOutcome × List (String × Nat) :=
  match call_init trackimo_init_params trackimo_connect_kwargs with
  | .error e => (.crash e, reg)
  | .ok _ =>
    if connectOk then (.connected, dictInsert ("trackimo") newId reg)
    else (.httpError 401, reg)

/-- `arvento_connect` (server.py lines 241-266). -/
def arvento_connect_handler (connectOk : Bool) (newId : Nat)
    (reg : List (String × Nat)) : HandlerOutcome × List (String × Nat) :=
  match call_init arvento_init_params arvento_connect_kwargs with
  | .error e => (.crash e, reg)
  | .ok _ =>
    if connectOk then (.connected, dictInsert ("arvento") newId reg)
    else (.httpError 401, reg)

/-- C3 (code evaluation): every Trackimo connect/restore request crashes
with `TypeError` — an unrelated crash, not the single failed-connect
signal the claim requires — leaving the registry unchanged, regardless of
whether the credentials would have worked; the Arvento handler, whose
constructor accepts the `offline` keyword, behaves as the claim states:
install (replacing any prior instance) on success only, HTTP 401 and an
unchanged registry on failure. -/
theorem claim_C3 (newId : Nat) (reg : List (String × Nat)) :
    trackimo_connect_handler true newId reg = (.crash .typeError, reg)
    ∧ trackimo_connect_handler false newId reg = (.crash .typeError, reg)
    ∧ trackimo_restore_handler true newId reg = (.crash .typeError, reg)
    ∧ trackimo_restore_handler false newId reg = (.crash .typeError, reg)
    ∧ arvento_connect_handler true newId reg
        = (.connected, dictInsert ("arvento") newId reg)
    ∧ arvento_connect_handler false newId reg = (.httpError 401, reg) :=
  ⟨rfl, rfl, rfl, rfl, rfl, rfl⟩

/-! ## Arvento adapter (`src/parsers/arvento_parser.py`) -/

/-- A vendor-native field value: absent/None, a string (the hand-rolled
XML path yields strings or None), or a number (the rich client path). -/
inductive AVal
  | vNone
  | vStr (s : String)
  | vNum (q : ℚ)
deriving DecidableEq, Repr

/-- `_safe_get(obj, key, default)`: uniform field access over both input
shapes — `obj.get(key, default)` on a mapping, `getattr(obj, key,
default)` on a client object; both are lookups in the field list. -/
def safe_get (fields : List (String × AVal)) (key : String)
    (dflt : AVal := .vNone) : AVal :=
  match fields.lookup key with
  | some v => v
  | none => dflt

/-- Python truthiness of a field value. -/
def truthyA : AVal → Bool
  | .vNone => false
  | .vStr s => s ≠ ""
  | .vNum q => q ≠ 0

/-- Python `str()` of a field value. -/
def pyStr : AVal → String
  | .vNone => "None"
  | .vStr s => s
  | .vNum q => toString q

/-- Value of a run of decimal digits. -/
def digitsVal (l : List Char) : Nat :=
  l.foldl (fun acc c => 10 * acc + digitVal c) 0

/-- `float()` on a decimal string: optional sign, digits, optional
fractional part; `none` models the `ValueError` raised otherwise. -/
def parseDecimalL (l : List Char) : Option ℚ :=
  let signed : ℚ × List Char :=
    match l with
    | '-' :: r => (-1, r)
    | '+' :: r => (1, r)
    | _ => (1, l)
  let ip := signed.2.takeWhile isDigitC
  let rest := signed.2.dropWhile isDigitC
  if ip.isEmpty then none
  else
    match rest with
    | [] => some (signed.1 * digitsVal ip)
    | '.' :: frac =>
      if !frac.isEmpty && frac.all isDigitC then
        some (signed.1 * ((digitsVal ip : ℚ) + (digitsVal frac : ℚ) / (10 ^ frac.length)))
      else none
    | _ => none

/-- `float()` on a field value; `none` models the raised
`TypeError`/`ValueError`. -/
def pyFloatA : AVal → Option ℚ
  | .vNum q => some q
  | .vStr s => parseDecimalL s.toList
  | .vNone => none

/-- `int()` on an integer string: optional sign then digits. -/
def parseIntL (l : List Char) : Option Int :=
  match l with
  | '-' :: r => if !r.isEmpty && r.all isDigitC then some (-(digitsVal r : Int)) else none
  | '+' :: r => if !r.isEmpty && r.all isDigitC then some ((digitsVal r : Int)) else none
  | _ => if !l.isEmpty && l.all isDigitC then some ((digitsVal l : Int)) else none

/-- `int()` on a field value (truncation toward zero on numbers). -/
def pyIntA : AVal → Option Int
  | .vNum q => some (if 0 ≤ q then ⌊q⌋ else -(⌊-q⌋))
  | .vStr s => parseIntL s.toList
  | .vNone => none

/-- Python `x or y`. -/
def pyOr (a b : AVal) : AVal := if truthyA a then a else b

/-- `str.replace` for a single-character pattern (the code replaces the
one-character substring `"Z"`). -/
def replaceChar (pat : Char) (rep : List Char) : List Char → List Char
  | [] => []
  | c :: r => if c = pat then rep ++ replaceChar pat rep r else c :: replaceChar pat rep r

/-- The two input shapes `_parse_vehicle_status` accepts, plus the bare
fallback: a rich client object (packet reached through
`.GetVehicleStatusByNodeV3Result.LastPacket`), a flattened mapping (packet
under the `"LastPacket"` key), or the value itself. -/
inductive ArData
  | clientObj (packet : List (String × AVal))
  | flatDict (packet : List (String × AVal))
  | bare (fields : List (String × AVal))

/-- Packet extraction (lines 269-273). -/
def extractPacket : ArData → List (String × AVal)
  | .clientObj p => p
  | .flatDict p => p
  | .bare p => p

/-- The `raw` dict built at lines 276-286. -/
def arRaw (packet : List (String × AVal)) : List (String × AVal) :=
  [("strNode", safe_get packet ("strNode")),
   ("dtGMTDateTime", .vStr (pyStr (safe_get packet ("dtGMTDateTime") (.vStr "")))),
   ("dLatitude", safe_get packet ("dLatitude")),
   ("dLongitude", safe_get packet ("dLongitude")),
   ("dSpeed", safe_get packet ("dSpeed")),
   ("strAddress", safe_get packet ("strAddress")),
   ("nCourse", safe_get packet ("nCourse")),
   ("dOdometer", safe_get packet ("dOdometer")),
   ("nAltitude", safe_get packet ("nAltitude"))]

/-- `raw.get(key)` (default `None`). -/
def rawGet (raw : List (String × AVal)) (k : String) : AVal :=
  (raw.lookup k).getD .vNone

/-- A field value stored into an optional-string slot. -/
def aValToOptStr : AVal → Option String
  | .vNone => none
  | .vStr s => some s
  | .vNum q => some (toString q)

/-- A field value rendered into the diagnostics bag. -/
def aValToJ : AVal → JVal
  | .vNone => .null
  | .vStr s => .jstr s
  | .vNum q => .jnum q

/-- `float(v) if v else None`: a falsy field yields null, a truthy field
is converted (raising — `none` — when unconvertible). -/
def optFloatIfTruthy (v : AVal) : Option (Option ℚ) :=
  if truthyA v then (pyFloatA v).map some else some none

/-- `_parse_vehicle_status` (lines 259-314). `none` models the
`ValueError`/`TypeError` a failing `float()`/`int()` raises; the
timestamp's own parse failure is swallowed (`except: pass`) and yields a
null timestamp instead. -/
def parse_vehicle_status (node : String) (data : ArData) : Option GPSLocation :=
  let packet := extractPacket data
  let raw := arRaw packet
  let timestamp :=
    let dtv := rawGet raw ("dtGMTDateTime")
    if truthyA dtv then
      fromisoformatL (replaceChar 'Z' (("+00:00").toList) (pyStr dtv).toList)
    else none
  let lat := rawGet raw ("dLatitude")
  let lng := rawGet raw ("dLongitude")
  (optFloatIfTruthy lat).bind fun latitude =>
  (optFloatIfTruthy lng).bind fun longitude =>
  (pyFloatA (pyOr (rawGet raw ("nAltitude")) (.vNum 0))).bind fun altitude =>
  (pyFloatA (pyOr (rawGet raw ("dSpeed")) (.vNum 0))).bind fun speed =>
  (pyIntA (pyOr (rawGet raw ("nCourse")) (.vNum 0))).bind fun course =>
  (pyFloatA (pyOr (rawGet raw ("dOdometer")) (.vNum 0))).bind fun odometer =>
  some { device_id := node
         provider := .arvento
         latitude := latitude
         longitude := longitude
         altitude := some altitude
         speed := some speed
         course := some course
         timestamp := timestamp
         address := aValToOptStr (rawGet raw ("strAddress"))
         odometer := some odometer
         is_moving := decide (0 < speed)
         raw_data := raw.map (fun p => (p.1, aValToJ p.2)) }

/-! ## Claim C4: Arvento status-to-Location mapping -/

theorem digitChar_ne_Z (k : Nat) : digitChar k ≠ 'Z' := by
  unfold digitChar
  split <;> decide

theorem zNotMem_isoformatL (t : PyDateTime) (ht : t.tzOffsetMinutes = none) :
    'Z' ∉ isoformatL t := by
  have hz : ∀ k, ('Z' = digitChar k) = False :=
    fun k => eq_false (fun h => digitChar_ne_Z k h.symm)
  intro hmem
  by_cases hu : t.microsecond = 0 <;>
    simp [isoformatL, ht, hu, pad4, pad2, pad6, hz] at hmem

theorem isoformatL_withTZ (t : PyDateTime) (ht : t.tzOffsetMinutes = none) (o : Int) :
    isoformatL { t with tzOffsetMinutes := some o } = isoformatL t ++ renderOffset o := by
  simp [isoformatL, ht, List.append_assoc]

theorem replaceChar_append_z (rep : List Char) (l : List Char) (hz : 'Z' ∉ l) :
    replaceChar 'Z' rep (l ++ ('Z' :: List.nil)) = l ++ rep := by
  induction l with
  | nil => simp [replaceChar]
  | cons c r ih =>
    have hc : ¬ c = 'Z' := fun h => hz (h ▸ List.mem_cons_self c r)
    have hr : 'Z' ∉ r := fun h => hz (List.mem_cons_of_mem _ h)
    simp only [List.cons_append, replaceChar, if_neg hc]
    exact congrArg (List.cons c) (ih hr)

theorem validDT_setTZ (t : PyDateTime) (hv : ValidDT t) (o : Int)
    (ho : o.natAbs < 1440) : ValidDT { t with tzOffsetMinutes := some o } := by
  obtain ⟨h1, h2, h3, h4, h5, h6, h7, h8, h9, h10, _⟩ := hv
  refine ⟨h1, h2, h3, h4, h5, h6, h7, h8, h9, h10, ?_⟩
  intro x hx
  simp only [Option.mem_def, Option.some.injEq] at hx
  subst hx
  exact ho

/-- What claim C4 asserts of one parsed vehicle status. -/
def C4Statement (packet : List (String × AVal)) (loc : GPSLocation) : Prop :=
  (truthyA (safe_get packet ("dLatitude")) = false → loc.latitude = none)
  ∧ (truthyA (safe_get packet ("dLongitude")) = false → loc.longitude = none)
  ∧ (truthyA (safe_get packet ("nAltitude")) = false → loc.altitude = some 0)
  ∧ (truthyA (safe_get packet ("dSpeed")) = false → loc.speed = some 0)
  ∧ (truthyA (safe_get packet ("nCourse")) = false → loc.course = some 0)
  ∧ (truthyA (safe_get packet ("dOdometer")) = false → loc.odometer = some 0)
  ∧ (∀ q, loc.speed = some q → loc.is_moving = decide (0 < q))
  ∧ (∀ t : PyDateTime, t.tzOffsetMinutes = none → ValidDT t →
      safe_get packet ("dtGMTDateTime") (.vStr "")
        = .vStr (String.mk (isoformatL t ++ ('Z' :: List.nil))) →
      loc.timestamp = some { t with tzOffsetMinutes := some (0 : Int) })

/-- C4: in both the rich client-object shape and the flattened-mapping
shape, latitude/longitude are null whenever the vendor field is falsy
(empty/absent — never zero), altitude/speed/course/odometer default to
zero when the field is falsy, `is_moving` is exactly `speed > 0`, and a
trailing `"Z"` on the timestamp string is parsed as UTC offset zero. -/
theorem claim_C4 (node : String) (packet : List (String × AVal)) (data : ArData)
    (hshape : data = .clientObj packet ∨ data = .flatDict packet)
    (loc : GPSLocation) (hp : parse_vehicle_status node data = some loc) :
    C4Statement packet loc := by
  have hpk : extractPacket data = packet := by
    rcases hshape with h | h <;> subst h <;> rfl
  rw [show parse_vehicle_status node data
      = parse_vehicle_status node (.bare packet) by
    rcases hshape with h | h <;> subst h <;> rfl] at hp
  simp only [parse_vehicle_status, extractPacket, Option.bind_eq_some',
    Option.some.injEq] at hp
  obtain ⟨la, hla, lo, hlo, al, hal, sp, hsp, co, hco, od, hod, hloc⟩ := hp
  subst hloc
  have e1 : rawGet (arRaw packet) ("dLatitude") = safe_get packet ("dLatitude") := rfl
  have e2 : rawGet (arRaw packet) ("dLongitude") = safe_get packet ("dLongitude") := rfl
  have e3 : rawGet (arRaw packet) ("nAltitude") = safe_get packet ("nAltitude") := rfl
  have e4 : rawGet (arRaw packet) ("dSpeed") = safe_get packet ("dSpeed") := rfl
  have e5 : rawGet (arRaw packet) ("nCourse") = safe_get packet ("nCourse") := rfl
  have e6 : rawGet (arRaw packet) ("dOdometer") = safe_get packet ("dOdometer") := rfl
  have e7 : rawGet (arRaw packet) ("dtGMTDateTime")
      = .vStr (pyStr (safe_get packet ("dtGMTDateTime") (.vStr ""))) := rfl
  refine ⟨?_, ?_, ?_, ?_, ?_, ?_, ?_, ?_⟩
  · intro hf
    rw [e1] at hla
    rw [show optFloatIfTruthy (safe_get packet ("dLatitude")) = some none by
      simp [optFloatIfTruthy, hf]] at hla
    exact (Option.some.inj hla).symm
  · intro hf
    rw [e2] at hlo
    rw [show optFloatIfTruthy (safe_get packet ("dLongitude")) = some none by
      simp [optFloatIfTruthy, hf]] at hlo
    exact (Option.some.inj hlo).symm
  · intro hf
    rw [e3] at hal
    rw [show pyOr (safe_get packet ("nAltitude")) (.vNum 0) = .vNum 0 by
      simp [pyOr, hf]] at hal
    simp only [pyFloatA, Option.some.injEq] at hal
    simp [← hal]
  · intro hf
    rw [e4] at hsp
    rw [show pyOr (safe_get packet ("dSpeed")) (.vNum 0) = .vNum 0 by
      simp [pyOr, hf]] at hsp
    simp only [pyFloatA, Option.some.injEq] at hsp
    simp [← hsp]
  · intro hf
    rw [e5] at hco
    rw [show pyOr (safe_get packet ("nCourse")) (.vNum 0) = .vNum 0 by
      simp [pyOr, hf]] at hco
    simp only [pyIntA, Option.some.injEq] at hco
    simp only [← hco]
    norm_num
  · intro hf
    rw [e6] at hod
    rw [show pyOr (safe_get packet ("dOdometer")) (.vNum 0) = .vNum 0 by
      simp [pyOr, hf]] at hod
    simp only [pyFloatA, Option.some.injEq] at hod
    simp [← hod]
  · intro q hq
    simp only [Option.some.injEq] at hq
    simp [← hq]
  · intro t htz hval hfield
    have hzm := zNotMem_isoformatL t htz
    have hne : isoformatL t ++ ('Z' :: List.nil) ≠ [] := by simp
    have htr : truthyA (.vStr (String.mk (isoformatL t ++ ('Z' :: List.nil)))) = true := by
      simp [truthyA, String.ext_iff]
    show (if truthyA (rawGet (arRaw packet) ("dtGMTDateTime")) = true then _ else none) = _
    rw [e7, hfield]
    simp only [pyStr, htr, if_true, ite_true]
    show fromisoformatL
        (replaceChar 'Z' (("+00:00").toList)
          (isoformatL t ++ ('Z' :: List.nil))) = _
    rw [replaceChar_append_z _ _ hzm]
    rw [show ("+00:00").toList = renderOffset 0 from rfl]
    rw [← isoformatL_withTZ t htz 0]
    exact fromisoformatL_isoformatL _ (validDT_setTZ t hval 0 (by decide))

/-- Concrete flattened-mapping packet: empty coordinate and numeric
fields, a trailing-`Z` timestamp. -/
def c4packet : List (String × AVal) :=
  [("strNode", .vStr "K1200098807"),
   ("dtGMTDateTime", .vStr "2023-06-01T03:42:23Z"),
   ("dLatitude", .vStr ""),
   ("dLongitude", .vStr ""),
   ("dSpeed", .vNone),
   ("strAddress", .vStr "Osmancik, Corum"),
   ("nCourse", .vStr ""),
   ("dOdometer", .vNone),
   ("nAltitude", .vStr "")]

/-- The Location `_parse_vehicle_status` produces for `c4packet`. -/
def c4loc : GPSLocation :=
  { device_id := "NODE1"
    provider := .arvento
    latitude := none
    longitude := none
    altitude := some 0
    speed := some 0
    course := some 0
    timestamp := some ⟨2023, 6, 1, 3, 42, 23, 0, some 0⟩
    address := some "Osmancik, Corum"
    odometer := some 0
    is_moving := false
    raw_data := (arRaw c4packet).map (fun p => (p.1, aValToJ p.2)) }

theorem claim_C4_witness :
    (ArData.flatDict c4packet = ArData.clientObj c4packet
      ∨ ArData.flatDict c4packet = ArData.flatDict c4packet)
    ∧ parse_vehicle_status ("NODE1") (ArData.flatDict c4packet) = some c4loc
    ∧ C4Statement c4packet c4loc :=
  ⟨Or.inr rfl, rfl,
    claim_C4 ("NODE1") c4packet (ArData.flatDict c4packet) (Or.inr rfl) c4loc rfl⟩

/-! ## Claim C10: device-registry lifecycle at disconnect -/

/-- Trackimo adapter instance state. -/
structure TkState where
  session : Bool := false
  access_token : Option String := none
  refresh_token : Option String := none
  account_id : Option Int := none
  devices : List (String × GPSDevice) := []

/-- `TrackimoParser.disconnect` (lines 219-225): close the session, clear
both tokens — and touch nothing else. -/
def tk_disconnect (s : TkState) : TkState :=
  { s with session := false, access_token := none, refresh_token := none }

/-- Arvento adapter instance state. -/
structure ArState where
  client : Bool := false
  connected : Bool := false
  devices : List (String × GPSDevice) := []

/-- `ArventoParser.disconnect` (lines 100-103): drop the client, clear the
connected flag — and touch nothing else. -/
def ar_disconnect (s : ArState) : ArState :=
  { s with client := false, connected := false }

/-- Vendor behaviour for the Arvento online resolution/status calls. -/
structure ArEnv where
  nodeOf : String → Option String
  statusOf : String → Option ArData

/-- `get_vehicle_status` (online path): a falsy SOAP result is `None`, a
truthy one is parsed (whose `float()` failures raise). -/
def ar_get_vehicle_status (env : ArEnv) (node : String) :
    Except PyError (Option GPSLocation) :=
  match env.statusOf node with
  | none => .ok none
  | some data =>
    match parse_vehicle_status node data with
    | some loc => .ok (some loc)
    | none => .error .valueError

/-- `add_vehicle` (lines 340-368): resolve the plate, not-found when the
node is unknown, else fetch status and register the device (overwriting
any same-key entry; never deleting). -/
def ar_add_vehicle (env : ArEnv) (plate : String) (name : Option String)
    (devices : List (String × GPSDevice)) :
    Except PyError (Option GPSDevice × List (String × GPSDevice)) :=
  match env.nodeOf plate with
  | none => .ok (none, devices)
  | some node =>
    match ar_get_vehicle_status env node with
    | .error e => .error e
    | .ok location =>
      let device : GPSDevice :=
        { device_id := node
          provider := .arvento
          name := some (match name with
            | some s => if s ≠ "" then s else plate
            | none => plate)
          status := some "active"
          last_location := location
          raw_data := [("license_plate", .jstr plate), ("node", .jstr node)] }
      .ok (some device, dictInsert node device devices)

/-- `get_devices` on the Arvento adapter: a pure read of the registry. -/
def ar_get_devices (devices : List (String × GPSDevice)) : List GPSDevice :=
  devices.map Prod.snd

/-- A registered device for the counterexample states. -/
def c10dev : GPSDevice := { device_id := "NODE001", provider := .arvento }

/-- Trackimo adapter state holding one device. -/
def c10tk : TkState :=
  { session := true, access_token := some "tok", account_id := some 5,
    devices := [("NODE001", c10dev)] }

/-- Arvento adapter state holding one device. -/
def c10ar : ArState :=
  { client := true, connected := true, devices := [("NODE001", c10dev)] }

/-- C10 counterexample: after `disconnect`, the device registry of either
adapter still holds its entry — the claim that it "holds no entries" after
disconnect is false on the code. -/
theorem claim_C10_counterexample :
    (tk_disconnect c10tk).devices = [("NODE001", c10dev)]
    ∧ (tk_disconnect c10tk).devices ≠ []
    ∧ (ar_disconnect c10ar).devices = [("NODE001", c10dev)]
    ∧ (ar_disconnect c10ar).devices ≠ [] :=
  ⟨rfl, by simp [tk_disconnect, c10tk], rfl, by simp [ar_disconnect, c10ar]⟩

/-- C10 (amended): no adapter operation — disconnect included — removes a
device-registry entry: both disconnects leave the registry exactly
unchanged (entries are discarded only when the dispatcher drops the whole
instance), `get_devices` only adds or overwrites entries, and
`add_vehicle` only adds or overwrites entries. -/
theorem claim_C10_amended :
    (∀ s : TkState, (tk_disconnect s).devices = s.devices)
    ∧ (∀ s : ArState, (ar_disconnect s).devices = s.devices)
    ∧ (∀ (env : TkEnv) (a : Option Int) (fuel : Nat)
        (reg : List (String × GPSDevice)) (k : String),
        k ∈ reg.map Prod.fst →
        k ∈ (tk_get_devices env a fuel reg).registry.map Prod.fst)
    ∧ (∀ (env : ArEnv) (plate : String) (name : Option String)
        (devices : List (String × GPSDevice))
        (res : Option GPSDevice × List (String × GPSDevice)) (k : String),
        ar_add_vehicle env plate name devices = .ok res →
        k ∈ devices.map Prod.fst → k ∈ res.2.map Prod.fst) := by
  refine ⟨fun s => rfl, fun s => rfl, ?_, ?_⟩
  · intro env a fuel reg k hk
    match a with
    | none => exact hk
    | some acc =>
      show k ∈ (fetch_all_locations env (get_devices_loop env 20 fuel 1 reg 0).1).1.map Prod.fst
      rw [keys_fetch_all_locations]
      exact mem_keys_loop env 20 fuel 1 0 reg k hk
  · intro env plate name devices res k hres hk
    match hnode : env.nodeOf plate with
    | none =>
      simp only [ar_add_vehicle, hnode] at hres
      cases hres
      exact hk
    | some node =>
      simp only [ar_add_vehicle, hnode] at hres
      match hst : ar_get_vehicle_status env node with
      | .error e => rw [hst] at hres; cases hres
      | .ok location =>
        rw [hst] at hres
        simp only [Except.ok.injEq] at hres
        subst hres
        exact (mem_keys_dictInsert k node _ devices).mpr (Or.inr hk)

theorem claim_C10_amended_witness :
    ("NODE001" : String) ∈ (c10tk.devices).map Prod.fst
    ∧ "NODE001" ∈ (tk_get_devices c2env (some 5) 0 c10tk.devices).registry.map Prod.fst :=
  ⟨by decide,
    claim_C10_amended.2.2.1 c2env (some 5) 0 c10tk.devices ("NODE001") (by decide)⟩

end GpsSpec
